import Mathlib

/-!
# Verification of the excel-extract-api repository

Shallow embedding of the two service variants of the repository:
`src/excel_api_service.py` (FastAPI, position-based classification) and
`src/flask_app.py` (Flask, column-name-based classification), together with
theorems settling the frozen claims about the spec.

Spreadsheet cell values are modelled by `Cell`; a parsed spreadsheet with no
header inference (`pd.read_excel(..., header=None)`) is a `RawTable`, a list
of rows of cells; a parse with header inference (`header=0` or default) is a
`DataFrame` with a column-name list and data rows.  The pandas/openpyxl
serialization library is not part of the repository; it is modelled as a
deterministic pure function of the result table, per the spec's Serializer
contract.
-/

/-- A spreadsheet cell: a numeric value, a text value, or empty (pandas NaN). -/
inductive Cell where
  | num (q : ℚ)
  | str (s : String)
  | empty
  deriving Repr, DecidableEq

/-- A table parsed with `header=None`: an ordered list of rows of cells.
pandas DataFrames are rectangular; a row shorter than the widest row is
padded with NaN, which `cellAt` reproduces via the `Cell.empty` default. -/
def RawTable : Type := List (List Cell)

/-- Cell of a row at a zero-indexed column position; missing cells are NaN. -/
def cellAt (r : List Cell) (i : Nat) : Cell := r.getD i Cell.empty

/-- `str(cell)` as pandas displays a cell value: text is itself, a number is
its decimal rendering, NaN prints as "nan". -/
def cellStr : Cell → String
  | Cell.str s => s
  | Cell.num q => toString q
  | Cell.empty => "nan"

/-- Does `hay` start with `needle`? (character-list version). -/
def listLeadsWith : List Char → List Char → Bool
  | [], _ => true
  | _ :: _, [] => false
  | a :: as, b :: bs => a == b && listLeadsWith as bs

/-- Does `needle` occur contiguously inside `hay`? -/
def listHasSub (needle : List Char) : List Char → Bool
  | [] => listLeadsWith needle []
  | c :: t => listLeadsWith needle (c :: t) || listHasSub needle t

/-- Python's `needle in hay` substring test. -/
def strHasSub (hay needle : String) : Bool := listHasSub needle.toList hay.toList

/-- The two layouts of the position-based classifier.  There is no third
"unknown" constructor: classification always yields one of these. -/
inductive FormatType where
  | surveyResults
  | slopeInspection
  deriving Repr, DecidableEq

/-- `str(df_raw.iloc[0, 0]) if len(df_raw) > 0 else ""`
(src/excel_api_service.py line 79). -/
def firstCellStr (t : RawTable) : String :=
  match t with
  | [] => ""
  | r :: _ => cellStr (cellAt r 0)

/-- The marker test of src/excel_api_service.py line 82:
`"Survey results" in first_cell or "测量成果表" in first_cell`. -/
def hasMarker (t : RawTable) : Bool :=
  strHasSub (firstCellStr t) "Survey results" || strHasSub (firstCellStr t) "测量成果表"

/-- The position-based Format Classifier of src/excel_api_service.py
lines 78-101: marker in the first cell selects the SurveyResults branch,
everything else falls to the SlopeInspection branch. -/
def classify (t : RawTable) : FormatType :=
  if hasMarker t then FormatType.surveyResults else FormatType.slopeInspection

/-- Layout names as reported in `format_type`. -/
def formatName : FormatType → String
  | FormatType.surveyResults => "测量成果表"
  | FormatType.slopeInspection => "边坡检查表"

/-- Spec-side restatement of the claim's classification condition, written
from the claim's words for comparison with `classify`: "the string of the
cell at row 0, column 0 (absence treated as the empty string) contains either
marker substring". -/
def claimMarkerCond (t : RawTable) : Bool :=
  let s := match t with
    | [] => ""
    | r :: _ => cellStr (cellAt r 0)
  strHasSub s "Survey results" || strHasSub s "测量成果表"

/-- C1: position-based classification: a parsed raw table whose first cell's
string contains either marker substring is classified SurveyResults
(reported as "测量成果表"); every other parsed input is classified
SlopeInspection (reported as "边坡检查表"); `classify` is a total function
into a two-constructor type, so classification never errors and has no
"unknown" outcome. -/
theorem classify_position_based (t : RawTable) :
    (claimMarkerCond t = true → classify t = FormatType.surveyResults) ∧
    (claimMarkerCond t = false → classify t = FormatType.slopeInspection) ∧
    (classify t = FormatType.surveyResults ∨ classify t = FormatType.slopeInspection) ∧
    formatName (classify t) = (if claimMarkerCond t then "测量成果表" else "边坡检查表") := by
  have hc : claimMarkerCond t = hasMarker t := by
    cases t <;> rfl
  unfold classify formatName
  rw [hc]
  cases h : hasMarker t <;> simp

/-- C1 witness: a concrete marker table is classified SurveyResults and a
concrete conventional table is classified SlopeInspection. -/
theorem classify_position_based_witness :
    classify [[Cell.str "测量成果表（第1期）"]] = FormatType.surveyResults ∧
    classify [[Cell.str "序号", Cell.str "桩号"]] = FormatType.slopeInspection := by
  constructor
  · exact (classify_position_based [[Cell.str "测量成果表（第1期）"]]).1 (by decide)
  · exact (classify_position_based [[Cell.str "序号", Cell.str "桩号"]]).2.1 (by decide)

/-! ## SurveyResults extraction (src/excel_api_service.py lines 83-88) -/

/-- Digits of a character list: `true` when every char is a decimal digit. -/
def allDigits (cs : List Char) : Bool := cs.all (fun c => c.isDigit)

/-- Does a text cell parse as a number under `pd.to_numeric`?  Modelled as an
optional sign, then a nonempty digit string, optionally followed by a point
and a digit string (decimal literals; the shape pandas accepts for the
point-index column this predicate is applied to). -/
def strIsNumeric (s : String) : Bool :=
  let cs := s.toList
  let body := match cs with
    | '+' :: t => t
    | '-' :: t => t
    | t => t
  match body.splitOn '.' with
  | [w] => w ≠ [] && allDigits w
  | [w, f] => w ≠ [] && allDigits w && allDigits f
  | _ => false

/-- `pd.to_numeric(cell, errors='coerce').notna()`: a numeric cell stays
numeric, NaN stays NaN (dropped), a text cell is kept iff it parses as a
number. -/
def cellIsNumeric : Cell → Bool
  | Cell.num _ => true
  | Cell.empty => false
  | Cell.str s => strIsNumeric s

/-- Row filter of src/excel_api_service.py line 84: keep a row iff its cell
at zero-indexed column position 2 parses as numeric.  This per-row test is
what line 84 computes on a frame whose column 2 exists (width at least 3);
the `cellAt` default covers only NaN padding of ragged rows inside such a
frame.  On a narrower frame line 84 itself raises IndexError instead of
filtering; that path is modelled in `extractCore`, not here. -/
def surveyRowKept (r : List Cell) : Bool := cellIsNumeric (cellAt r 2)

/-- Lines 83-84: re-read with `skiprows=7`, then keep only the rows whose
discriminant column (position 2) is numeric (valid on frames of width at
least 3, see `surveyRowKept`). -/
def surveyFilter (t : RawTable) : List (List Cell) :=
  (List.drop 7 t).filter surveyRowKept

/-- Positional column count of a parsed frame: pandas pads every row to the
width of the widest row, so the frame has `max` row length columns (an empty
frame has 0 columns). -/
def frameWidth (rows : List (List Cell)) : Nat :=
  rows.foldr (fun r acc => max r.length acc) 0

/-- Column count of the `skiprows=7` re-read of line 83.  `df.iloc[:, 2]`
(line 84) raises IndexError when this is below 3, and
`df.iloc[:, [1, 2, 3, 4]]` (line 86) raises when it is below 5; row
filtering in between does not change the column count. -/
def surveyWidth (t : RawTable) : Nat := frameWidth (List.drop 7 t)

/-- Line 85: the four fixed source-column positions selected, in order. -/
def surveyTargetColumns : List Nat := [1, 2, 3, 4]

/-- Lines 85-86: from each retained row select source columns 1,2,3,4.
Faithful on frames of width at least 5 (all four positions exist as columns;
`cellAt` covers NaN padding of ragged rows); on a narrower frame line 86
raises IndexError, modelled in `extractCore`. -/
def surveySelect (r : List Cell) : List Cell :=
  surveyTargetColumns.map (cellAt r)

/-- Lines 83-87: the rows of the SurveyResults result table, on the frames
(width at least 5) where the branch runs to completion. -/
def surveyExtract (t : RawTable) : List (List Cell) :=
  (surveyFilter t).map surveySelect

/-- Line 87: the four fixed output column names of the SurveyResults layout. -/
def surveyColumns : List String := ["测点编号", "X坐标", "Y坐标", "高程H"]

/-! ## SlopeInspection extraction (src/excel_api_service.py lines 92-101) -/

/-- A table parsed with header inference (`header=0` / pandas default): its
header row becomes the column names, the remaining rows are the data. -/
structure DataFrame where
  columns : List String
  rows : List (List Cell)
  deriving Repr, DecidableEq

/-- Line 95: the eight fixed source-column positions of the SlopeInspection
layout. -/
def slopeTargetColumns : List Nat := [0, 5, 8, 9, 10, 11, 12, 13]

/-- Lines 98-99: the eight fixed output names of the SlopeInspection layout. -/
def slopeNewColumnNames : List String :=
  ["线路名", "超欠挖", "实测X或里程", "实测Y或偏距", "实测Z坐标", "里程", "偏距", "设计标高"]

/-- Line 96: `[i for i in target_columns if i < len(columns)]` — clamp the
fixed position list to the positions that exist in a table with `c` columns. -/
def validIndices (c : Nat) : List Nat :=
  slopeTargetColumns.filter (fun i => decide (i < c))

/-- Line 100: `new_column_names[:len(valid_indices)]` — the output names,
truncated to the number of surviving positions. -/
def slopeOutNames (c : Nat) : List String :=
  slopeNewColumnNames.take (validIndices c).length

/-- Lines 92-100: the SlopeInspection Layout Extractor: select the surviving
positions from each data row of the header-parsed table. -/
def slopeExtract (df : DataFrame) : List (List Cell) :=
  df.rows.map (fun r => (validIndices df.columns.length).map (cellAt r))

/-- C3: SlopeInspection clamping: with C header columns, the selected
positions are exactly the members of (0,5,8,9,10,11,12,13) strictly below C;
every output row has exactly that many entries (the output column count);
the name list is truncated to that same count; and the k-th surviving
position receives the k-th fixed name. -/
theorem slope_clamping (c : Nat) (df : DataFrame) (hc : df.columns.length = c) :
    validIndices c = slopeTargetColumns.filter (fun i => decide (i < c)) ∧
    (∀ row, row ∈ slopeExtract df → row.length = (validIndices c).length) ∧
    (slopeOutNames c).length = (validIndices c).length ∧
    (∀ k hk hk2, (slopeOutNames c).get ⟨k, hk⟩ = slopeNewColumnNames.get ⟨k, hk2⟩) := by
  refine ⟨rfl, ?_, ?_, ?_⟩
  · intro row hrow
    rw [slopeExtract] at hrow
    obtain ⟨r, _, hr⟩ := List.mem_map.mp hrow
    rw [← hr, List.length_map, hc]
  · rw [slopeOutNames, List.length_take]
    refine Nat.min_eq_left ?_
    calc (validIndices c).length ≤ slopeTargetColumns.length :=
          List.length_filter_le _ _
      _ = slopeNewColumnNames.length := by rfl
  · intro k hk hk2
    simp only [slopeOutNames, List.get_eq_getElem, List.getElem_take]

/-- C3 witness: a 9-column header clamps the selection to positions 0,5,8 and
truncates the names to the first three, in order. -/
theorem slope_clamping_witness :
    validIndices 9 = [0, 5, 8] ∧
    slopeOutNames 9 = ["线路名", "超欠挖", "实测X或里程"] ∧
    (slopeOutNames 9).length = (validIndices 9).length := by
  refine ⟨by decide, by decide, ?_⟩
  exact (slope_clamping 9 ⟨["a","b","c","d","e","f","g","h","i"], []⟩ (by decide)).2.2.1

/-! ## Serializer (src/excel_api_service.py lines 114-123; pandas ExcelWriter
with the openpyxl engine, modelled) -/

/-- The base64 alphabet used by `base64.b64encode`. -/
def b64Alphabet : List Char :=
  "ABCDEFGHIJKLMNOPQRSTUVWXYZabcdefghijklmnopqrstuvwxyz0123456789+/".toList

/-- The base64 digit of a 6-bit value. -/
def b64Char (n : Nat) : Char := b64Alphabet.getD n '='

/-- `base64.b64encode` on a byte list, producing the padded character
stream: each 3-byte group becomes 4 alphabet characters, a trailing 1- or
2-byte group is padded with '='. -/
def b64encodeList : List Nat → List Char
  | [] => []
  | [a] => [b64Char (a / 4), b64Char (a % 4 * 16), '=', '=']
  | [a, b] => [b64Char (a / 4), b64Char (a % 4 * 16 + b / 16), b64Char (b % 16 * 4), '=']
  | a :: b :: c :: rest =>
      b64Char (a / 4) :: b64Char (a % 4 * 16 + b / 16) ::
        b64Char (b % 16 * 4 + c / 64) :: b64Char (c % 64) :: b64encodeList rest

/-- `base64.b64encode(bytes).decode('utf-8')`. -/
def b64encode (bs : List Nat) : String := String.mk (b64encodeList bs)

/-- Length-tagged byte encoding of a string (character codepoints). -/
def encStr (s : String) : List Nat := s.length :: s.toList.map Char.toNat

/-- Byte encoding of one cell value. -/
def encCell : Cell → List Nat
  | Cell.num q => 0 :: encStr (toString q)
  | Cell.str s => 1 :: encStr s
  | Cell.empty => [2]

/-- Byte encoding of one data row. -/
def encRow (r : List Cell) : List Nat := r.length :: (r.map encCell).flatten

/-- Modelled from the spec: the Serializer (pandas `ExcelWriter` with the
openpyxl engine, `to_excel(index=False, sheet_name='提取数据')`) is not part
of this repository; per the spec's Serializer contract it is a pure function
of the result table producing a single sheet with the fixed sheet name, a
header row equal to the column names, and one data row per table row.  The
concrete byte layout is modelled by this deterministic encoding. -/
def serializeXlsx (cols : List String) (rows : List (List Cell)) : List Nat :=
  encStr "提取数据" ++ (cols.map encStr).flatten ++ (rows.map encRow).flatten

/-- Line 123: `f"提取数据_{format_type}_{timestamp}.xlsx"`. -/
def makeFilename (fmt ts : String) : String :=
  "提取数据_" ++ fmt ++ "_" ++ ts ++ ".xlsx"

/-- One run of the serialization tail of the handler (lines 114-123) at a
given clock reading `ts`: the xlsx bytes, their base64 encoding, and the
generated filename.  Only the filename consumes the clock. -/
def serializerRun (fmt : String) (cols : List String) (rows : List (List Cell))
    (ts : String) : List Nat × String × String :=
  (serializeXlsx cols rows, b64encode (serializeXlsx cols rows), makeFilename fmt ts)

/-! ## The FastAPI handler (src/excel_api_service.py lines 54-144) -/

/-- The response model of src/excel_api_service.py lines 37-45. -/
structure ExtractResponse where
  success : Bool
  format_type : String
  row_count : Nat
  file_base64 : String
  filename : String
  message : String
  column_names : List String
  deriving Repr, DecidableEq

/-- The request model of src/excel_api_service.py lines 31-34: `file_url`
is a required `str` field, `file_base64` an optional one defaulting to None. -/
structure ExtractRequest where
  file_url : String
  file_base64 : Option String
  deriving Repr, DecidableEq

/-- pydantic request validation for `ExtractRequest`: the body's two fields
(absent = `none`).  Validation fails — the handler never runs — when the
required `file_url` field is missing; `file_base64` may be absent. -/
def parseExtractRequest (url_field b64_field : Option String) : Option ExtractRequest :=
  match url_field with
  | none => none
  | some u => some { file_url := u, file_base64 := b64_field }

/-- Python truthiness of an optional string: `None` and `""` are falsy. -/
def truthy : Option String → Bool
  | none => false
  | some s => !s.isEmpty

/-- `pd.read_excel(BytesIO(content), header=0)` as a re-view of the raw
table: row 0 becomes the column names (displayed as strings), the remaining
rows are the data. -/
def headerView (t : RawTable) : DataFrame :=
  { columns := (t.headD []).map cellStr, rows := List.drop 1 t }

/-- Lines 135-144: the `except Exception` catch-all response.  Any exception
raised in the body — base64 decode failure, fetch failure, the
`HTTPException`s of lines 69-75 (which subclass `Exception` and are caught
here too), a parse failure, or an in-extraction IndexError — ends in this
response. -/
def failureResponse (msg : String) : ExtractResponse :=
  { success := false, format_type := "未知", row_count := 0, file_base64 := "",
    filename := "", message := "解析Excel失败: " ++ msg, column_names := [] }

/-- Lines 103-133 applied to a completed extraction branch: zero extracted
rows give the `success=False` / `未能提取到任何数据` response of lines
103-112, otherwise the fully populated success response of lines 114-133. -/
def tableResponse (format_type : String) (outCols : List String)
    (extracted : List (List Cell)) (ts : String) : ExtractResponse :=
  if extracted.length = 0 then
    { success := false, format_type := format_type, row_count := 0,
      file_base64 := "", filename := "", message := "未能提取到任何数据",
      column_names := [] }
  else
    { success := true, format_type := format_type,
      row_count := extracted.length,
      file_base64 := b64encode (serializeXlsx outCols extracted),
      filename := makeFilename format_type ts,
      message := "识别为【" ++ format_type ++ "】，成功提取 " ++
        toString extracted.length ++ " 行数据",
      column_names := outCols }

/-- The text of the IndexError pandas raises on an out-of-bounds positional
index (index `i` against a frame of `w` columns), as stringified into the
catch-all message (modelled approximately; no claim inspects its content). -/
def indexErrorMsg (i w : Nat) : String :=
  "index " ++ toString i ++ " is out of bounds for axis 0 with size " ++ toString w

/-- Lines 78-133: classification and extraction on parsed content.  In the
SurveyResults branch, `df.iloc[:, 2]` (line 84) raises IndexError on a
post-skip frame narrower than 3 columns and `df.iloc[:, [1, 2, 3, 4]]`
(line 86) raises on one narrower than 5; either exception reaches the
line-135 catch-all, yielding `failureResponse`.  Otherwise the branch's
result table goes through the zero-row check and response building of lines
103-133 (`tableResponse`). -/
def extractCore (t : RawTable) (ts : String) : ExtractResponse :=
  match classify t with
  | FormatType.surveyResults =>
      if surveyWidth t < 3 then
        failureResponse (indexErrorMsg 2 (surveyWidth t))
      else if surveyWidth t < 5 then
        failureResponse (indexErrorMsg (surveyWidth t) (surveyWidth t))
      else
        tableResponse "测量成果表" surveyColumns (surveyExtract t) ts
  | FormatType.slopeInspection =>
      tableResponse "边坡检查表" (slopeOutNames (headerView t).columns.length)
        (slopeExtract (headerView t)) ts

/-- Unfolding of `extractCore` in the SurveyResults branch. -/
theorem extractCore_survey (t : RawTable) (ts : String)
    (hcl : classify t = FormatType.surveyResults) :
    extractCore t ts =
      (if surveyWidth t < 3 then failureResponse (indexErrorMsg 2 (surveyWidth t))
       else if surveyWidth t < 5 then
         failureResponse (indexErrorMsg (surveyWidth t) (surveyWidth t))
       else tableResponse "测量成果表" surveyColumns (surveyExtract t) ts) := by
  rw [extractCore, hcl]

/-- Unfolding of `extractCore` in the SlopeInspection branch. -/
theorem extractCore_slope (t : RawTable) (ts : String)
    (hcl : classify t = FormatType.slopeInspection) :
    extractCore t ts =
      tableResponse "边坡检查表" (slopeOutNames (headerView t).columns.length)
        (slopeExtract (headerView t)) ts := by
  rw [extractCore, hcl]

/-- Lines 54-144: the whole `/extract` handler.  `b64Parse` models decoding
the inline base64 and parsing it (`Except.error` = exception raised);
`urlFetch` models the HTTP GET plus parse, with a non-200 status or timeout
as `Except.error`.  Inline bytes are checked first; the URL loader is
consulted only when `file_base64` is falsy; with neither source usable the
line-75 `HTTPException` is raised and caught. -/
def fastapiExtract (req : ExtractRequest)
    (b64Parse : String → Except String RawTable)
    (urlFetch : String → Except String RawTable) (ts : String) : ExtractResponse :=
  let loaded : Except String RawTable :=
    if truthy req.file_base64 then b64Parse (req.file_base64.getD "")
    else if truthy (some req.file_url) then urlFetch req.file_url
    else Except.error "400: 请提供file_url或file_base64"
  match loaded with
  | Except.error e => failureResponse e
  | Except.ok t => extractCore t ts

/-! ## C2: SurveyResults extraction -/

/-- A SurveyResults-classified table whose post-skip frame is 5 columns
wide: marker row, 6 further skipped rows, then three data rows of which two
have a numeric discriminant at position 2. -/
def wideSurveyTable : RawTable :=
  [Cell.str "测量成果表"] :: List.replicate 6 ([] : List Cell) ++
    [[Cell.str "a", Cell.str "P1", Cell.num 3, Cell.num 4, Cell.num 5],
     [Cell.str "b", Cell.str "P2", Cell.str "note", Cell.num 6, Cell.num 7],
     [Cell.str "c", Cell.str "P3", Cell.str "8.5", Cell.num 9, Cell.num 10]]

/-- A SurveyResults-classified table whose post-skip frame is only 3 columns
wide, with exactly one numeric-discriminant row. -/
def narrowSurveyTable : RawTable :=
  [Cell.str "测量成果表"] :: List.replicate 6 ([] : List Cell) ++
    [[Cell.str "a", Cell.str "b", Cell.str "3"]]

/-- C2 (amended): SurveyResults extraction for tables whose post-skip frame
has at least 5 columns, so that the positional selections of lines 84 and 86
are in bounds: the branch runs to completion and the program's result table
is `surveyExtract t`; with exactly M of the post-skip rows numeric at column
position 2 that table has exactly M rows; the retained source rows form an
order-preserving subsequence of the post-skip rows (original relative
order); the k-th result row is exactly source positions 1,2,3,4 of the k-th
retained row; and the output names are the four fixed names.  On narrower
frames the claim as frozen fails: the selection raises IndexError into the
catch-all and no result table is produced (see the counterexample). -/
theorem surveyExtract_rows (t : RawTable) (M : Nat) (ts : String)
    (hcl : classify t = FormatType.surveyResults)
    (h5 : 5 ≤ surveyWidth t)
    (hM : (List.drop 7 t).countP surveyRowKept = M) :
    extractCore t ts = tableResponse "测量成果表" surveyColumns (surveyExtract t) ts ∧
    (surveyExtract t).length = M ∧
    List.Sublist (surveyFilter t) (List.drop 7 t) ∧
    (∀ k, k < (surveyFilter t).length →
      surveyRowKept ((surveyFilter t).getD k []) = true ∧
      (surveyExtract t).getD k [] =
        [cellAt ((surveyFilter t).getD k []) 1, cellAt ((surveyFilter t).getD k []) 2,
         cellAt ((surveyFilter t).getD k []) 3, cellAt ((surveyFilter t).getD k []) 4]) ∧
    surveyColumns = ["测点编号", "X坐标", "Y坐标", "高程H"] := by
  refine ⟨?_, ?_, ?_, ?_, rfl⟩
  · rw [extractCore_survey t ts hcl, if_neg (by omega), if_neg (by omega)]
  · rw [surveyExtract, List.length_map, surveyFilter, ← hM,
      List.countP_eq_length_filter]
  · exact List.filter_sublist _
  · intro k hk
    have hg : (surveyFilter t).getD k [] = (surveyFilter t).get ⟨k, hk⟩ :=
      List.getD_eq_getElem (surveyFilter t) [] hk
    constructor
    · rw [hg]
      have hmem : (surveyFilter t).get ⟨k, hk⟩ ∈ surveyFilter t := List.get_mem _ _ _
      exact List.of_mem_filter hmem
    · have hk2 : k < (surveyExtract t).length := by
        rw [surveyExtract, List.length_map]
        exact hk
      rw [hg, List.getD_eq_getElem (surveyExtract t) [] hk2]
      simp only [List.get_eq_getElem, surveyExtract, List.getElem_map]
      rfl

/-- C2 witness: on the 5-column table the branch runs, exactly the two
numeric-discriminant rows are extracted, and the handler's response is the
one built from that 2-row result table. -/
theorem surveyExtract_rows_witness :
    classify wideSurveyTable = FormatType.surveyResults ∧
    5 ≤ surveyWidth wideSurveyTable ∧
    (List.drop 7 wideSurveyTable).countP surveyRowKept = 2 ∧
    (surveyExtract wideSurveyTable).length = 2 ∧
    extractCore wideSurveyTable "20240101_000000" =
      tableResponse "测量成果表" surveyColumns (surveyExtract wideSurveyTable)
        "20240101_000000" := by
  have h := surveyExtract_rows wideSurveyTable 2 "20240101_000000"
    (by decide) (by decide) (by decide)
  exact ⟨by decide, by decide, by decide, h.2.1, h.1⟩

/-- C2 counterexample: the claim as frozen fails on `narrowSurveyTable`: its
post-skip frame has exactly one numeric-discriminant row (M = 1), so the
claim demands a 1-row result table, but `df.iloc[:, [1, 2, 3, 4]]` on the
3-column frame raises IndexError into the catch-all, which reports the
structural failure response — `success=False`, `row_count=0`, sentinel
layout "未知", no artifact — and no result table at all. -/
theorem surveyExtract_rows_counterexample :
    classify narrowSurveyTable = FormatType.surveyResults ∧
    (List.drop 7 narrowSurveyTable).countP surveyRowKept = 1 ∧
    surveyWidth narrowSurveyTable = 3 ∧
    (extractCore narrowSurveyTable "20240101_000000").success = false ∧
    (extractCore narrowSurveyTable "20240101_000000").row_count = 0 ∧
    (extractCore narrowSurveyTable "20240101_000000").format_type = "未知" ∧
    (extractCore narrowSurveyTable "20240101_000000").file_base64 = "" := by
  decide

/-! ## The Flask handler (src/flask_app.py) -/

/-- src/flask_app.py lines 18-27: the static format table, in the
enumeration (insertion) order of the Python dict: layout name, required
identifier column names, extraction column list. -/
def EXCEL_FORMATS : List (String × List String × List String) :=
  [("边坡检查表", ["序号", "桩号"],
      ["序号", "桩号", "检查时间", "责任人", "问题描述", "整改措施"]),
   ("测量成果表", ["点号", "X坐标"],
      ["点号", "X坐标", "Y坐标", "高程", "备注"])]

/-- `set(ids).issubset(set(cols))` on column-name lists. -/
def subsetCols (ids cols : List String) : Bool := ids.all (fun c => cols.contains c)

/-- src/flask_app.py lines 29-38: return the first format table entry, in
enumeration order, whose identifier columns are all present in the parsed
header; otherwise `(None, full column list)`. -/
def detect_excel_format (df : DataFrame) : Option String × List String :=
  match EXCEL_FORMATS.find? (fun f => subsetCols f.2.1 df.columns) with
  | some f => (some f.1, f.2.2)
  | none => (none, df.columns)

/-- Line 92: `custom_columns if custom_columns else default_columns` —
Python truthiness: `None` and the empty list both fall back to the
defaults. -/
def columnsToExtract (custom : Option (List String)) (defaults : List String) : List String :=
  match custom with
  | some (c :: cs) => c :: cs
  | _ => defaults

/-- The apostrophe character used by Python's `repr` of a string. -/
def pyQuote : Char := Char.ofNat 39

/-- Python `repr` of a string (as interpolated by an f-string from a list
element), without escape handling. -/
def pyRepr (s : String) : String := String.mk (pyQuote :: s.toList ++ [pyQuote])

/-- Python `str` of a list of strings, as interpolated at line 100:
`[<repr>, <repr>, ...]`. -/
def pyListRepr (l : List String) : String :=
  "[" ++ String.intercalate ", " (l.map pyRepr) ++ "]"

/-- The JSON response of the Flask handler together with its HTTP status
code; fields absent from a branch's payload are `none`. -/
structure FlaskResponse where
  status : Nat
  success : Bool
  message : String
  detected_format : Option String
  extracted_columns : Option (List String)
  row_count : Option Nat
  file_base64 : Option String
  deriving Repr, DecidableEq

/-- The three request-body fields read at lines 73-75 (absent = `none`). -/
structure FlaskData where
  file_url : Option String
  file_base64 : Option String
  columns : Option (List String)
  deriving Repr, DecidableEq

/-- `df[available_columns]`: select columns by name (first occurrence of
each name), one output row per source row. -/
def selectByName (df : DataFrame) (names : List String) : List (List Cell) :=
  df.rows.map (fun r => names.map (fun n => cellAt r (df.columns.indexOf n)))

/-- Lines 88-121: format detection, column resolution, the empty-selection
400 response of lines 97-101, and the success response. -/
def flaskProcess (df : DataFrame) (custom : Option (List String)) : FlaskResponse :=
  let fd := detect_excel_format df
  let cols := columnsToExtract custom fd.2
  let available := cols.filter (fun c => df.columns.contains c)
  if available.isEmpty then
    { status := 400, success := false,
      message := "未找到指定的列。可用列: " ++ pyListRepr df.columns,
      detected_format := none, extracted_columns := none, row_count := none,
      file_base64 := none }
  else
    let extracted := selectByName df available
    { status := 200, success := true,
      message := "成功提取 " ++ toString extracted.length ++ " 行数据",
      detected_format := some (fd.1.getD "未知格式"),
      extracted_columns := some available,
      row_count := some extracted.length,
      file_base64 := some (b64encode (serializeXlsx available extracted)) }

/-- Lines 123-127: the `except Exception` catch-all 500 response. -/
def flaskError500 (msg : String) : FlaskResponse :=
  { status := 500, success := false, message := "处理失败: " ++ msg,
    detected_format := none, extracted_columns := none, row_count := none,
    file_base64 := none }

/-- Lines 61-127: the whole Flask `/extract` handler.  `b64Load` and
`urlLoad` model `read_excel_from_base64` / `read_excel_from_url`
(`Except.error` = exception raised, e.g. decode failure, non-2xx status via
`raise_for_status`, timeout, parse failure).  The base64 field is checked
first; with neither field truthy the handler returns 400 directly. -/
def flaskExtract (body : Option FlaskData)
    (b64Load urlLoad : String → Except String DataFrame) : FlaskResponse :=
  match body with
  | none =>
      { status := 400, success := false, message := "请求体为空",
        detected_format := none, extracted_columns := none, row_count := none,
        file_base64 := none }
  | some d =>
    if truthy d.file_base64 then
      match b64Load (d.file_base64.getD "") with
      | Except.error e => flaskError500 e
      | Except.ok df => flaskProcess df d.columns
    else if truthy d.file_url then
      match urlLoad (d.file_url.getD "") with
      | Except.error e => flaskError500 e
      | Except.ok df => flaskProcess df d.columns
    else
      { status := 400, success := false, message := "请提供 file_url 或 file_base64",
        detected_format := none, extracted_columns := none, row_count := none,
        file_base64 := none }

/-! ## Helper lemmas -/

/-- A string append with a nonempty right part is nonempty. -/
theorem str_append_ne_empty_right (a b : String) (hb : b ≠ "") : a ++ b ≠ "" := by
  intro h
  have hd := congrArg String.data h
  rw [String.data_append] at hd
  exact hb (String.ext (List.append_eq_nil.mp hd).2)

/-- The serialized artifact bytes are never the empty byte list. -/
theorem serializeXlsx_ne_nil (cols : List String) (rows : List (List Cell)) :
    serializeXlsx cols rows ≠ [] := by
  simp [serializeXlsx, encStr]

/-- base64 of a nonempty byte list is a nonempty string. -/
theorem b64encode_ne_empty : ∀ bs : List Nat, bs ≠ [] → b64encode bs ≠ ""
  | [], h => absurd rfl h
  | [a], _ => by
      intro hc
      have hd := congrArg String.data hc
      simp [b64encode, b64encodeList] at hd
  | [a, b], _ => by
      intro hc
      have hd := congrArg String.data hc
      simp [b64encode, b64encodeList] at hd
  | a :: b :: c :: rest, _ => by
      intro hc
      have hd := congrArg String.data hc
      simp [b64encode, b64encodeList] at hd

/-- The generated filename is never empty. -/
theorem makeFilename_ne_empty (fmt ts : String) : makeFilename fmt ts ≠ "" :=
  str_append_ne_empty_right _ _ (by decide)

/-- A nonempty optional string is truthy. -/
theorem truthy_some_of_ne (s : String) (h : s ≠ "") : truthy (some s) = true := by
  have hbe : s.isEmpty = false := by
    cases he : s.isEmpty
    · rfl
    · exact absurd ((String.isEmpty_iff s).mp he) h
  simp [truthy, hbe]

/-- With a truthy inline `file_base64` the FastAPI handler's result does not
depend on the URL loader and equals processing the inline bytes. -/
theorem fastapi_inline_precedence (b64 : String) (hb : b64 ≠ "")
    (req : ExtractRequest) (hr : req.file_base64 = some b64)
    (p f1 f2 : String → Except String RawTable) (ts : String) :
    fastapiExtract req p f1 ts = fastapiExtract req p f2 ts ∧
    fastapiExtract req p f1 ts =
      (match p b64 with
       | Except.error e => failureResponse e
       | Except.ok t => extractCore t ts) := by
  rw [fastapiExtract, fastapiExtract, hr, truthy_some_of_ne b64 hb]
  simp

/-- C5: input-source resolution, in both variants: (1)-(2) with a usable
(truthy) `file_base64`, the handler's result does not depend on the URL
loader at all — the URL is never fetched — and equals processing the inline
bytes; (3)-(4) with neither source usable, the Flask handler answers HTTP
400 with `success=False`, and the FastAPI handler raises the line-75
`HTTPException`, caught into a `success=False` failure response rather than
a success or a crash. -/
theorem input_source_resolution (b64 : String) (hb : b64 ≠ "") :
    (∀ (d : FlaskData), d.file_base64 = some b64 →
      ∀ b64Load u1 u2, flaskExtract (some d) b64Load u1 = flaskExtract (some d) b64Load u2 ∧
        flaskExtract (some d) b64Load u1 =
          (match b64Load b64 with
           | Except.error e => flaskError500 e
           | Except.ok df => flaskProcess df d.columns)) ∧
    (∀ (req : ExtractRequest), req.file_base64 = some b64 →
      ∀ p f1 f2 ts, fastapiExtract req p f1 ts = fastapiExtract req p f2 ts ∧
        fastapiExtract req p f1 ts =
          (match p b64 with
           | Except.error e => failureResponse e
           | Except.ok t => extractCore t ts)) ∧
    (∀ (d : FlaskData), truthy d.file_base64 = false → truthy d.file_url = false →
      ∀ bl ul, (flaskExtract (some d) bl ul).status = 400 ∧
        (flaskExtract (some d) bl ul).success = false) ∧
    (∀ (req : ExtractRequest), truthy req.file_base64 = false → req.file_url = "" →
      ∀ p f ts, (fastapiExtract req p f ts).success = false ∧
        (fastapiExtract req p f ts).file_base64 = "") := by
  have htr : truthy (some b64) = true := truthy_some_of_ne b64 hb
  refine ⟨?_, ?_, ?_, ?_⟩
  · intro d hd b64Load u1 u2
    rw [flaskExtract, flaskExtract, hd, htr]
    simp
  · intro req hr p f1 f2 ts
    exact fastapi_inline_precedence b64 hb req hr p f1 f2 ts
  · intro d h1 h2 bl ul
    rw [flaskExtract, h1, h2]
    exact ⟨rfl, rfl⟩
  · intro req h1 h2 p f ts
    have h2' : truthy (some req.file_url) = false := by
      rw [h2]
      rfl
    rw [fastapiExtract, h1, h2']
    exact ⟨rfl, rfl⟩

/-- C5 witness: with both sources present the Flask result is insensitive to
the URL loader's behaviour, and with neither usable both handlers fail with
a client-error outcome. -/
theorem input_source_resolution_witness :
    (flaskExtract (some { file_url := some "http", file_base64 := some "QUJD", columns := none })
        (fun _ => Except.error "bad") (fun _ => Except.ok { columns := ["u1"], rows := [] }) =
     flaskExtract (some { file_url := some "http", file_base64 := some "QUJD", columns := none })
        (fun _ => Except.error "bad") (fun _ => Except.ok { columns := ["u2"], rows := [] })) ∧
    (flaskExtract (some { file_url := none, file_base64 := none, columns := none })
        (fun _ => Except.error "a") (fun _ => Except.error "b")).status = 400 ∧
    (fastapiExtract { file_url := "", file_base64 := none }
        (fun _ => Except.error "a") (fun _ => Except.error "b") "ts").success = false := by
  have h := input_source_resolution "QUJD" (by decide)
  refine ⟨?_, ?_, ?_⟩
  · exact (h.1 { file_url := some "http", file_base64 := some "QUJD", columns := none } rfl
      (fun _ => Except.error "bad") (fun _ => Except.ok { columns := ["u1"], rows := [] })
      (fun _ => Except.ok { columns := ["u2"], rows := [] })).1
  · exact (h.2.2.1 { file_url := none, file_base64 := none, columns := none } rfl rfl
      (fun _ => Except.error "a") (fun _ => Except.error "b")).1
  · exact (h.2.2.2 { file_url := "", file_base64 := none } rfl rfl
      (fun _ => Except.error "a") (fun _ => Except.error "b") "ts").1

/-! ## C6: serializer determinism -/

/-- Filenames generated for the same layout agree exactly when the
timestamps agree: the timestamp is the only varying component. -/
theorem makeFilename_inj (fmt ts1 ts2 : String) :
    makeFilename fmt ts1 = makeFilename fmt ts2 ↔ ts1 = ts2 := by
  constructor
  · intro h
    have hd := congrArg String.data h
    simp only [makeFilename, String.data_append] at hd
    exact String.ext (List.append_cancel_left (List.append_cancel_right hd))
  · intro h
    rw [h]

/-- C6: serializer determinism: two serializer runs on the same ResultTable
at clock readings ts1 and ts2 produce identical artifact bytes and identical
base64 strings — the artifact does not consume the clock — while the
filename decomposes as fixed-text ++ timestamp ++ fixed-text, so the two
runs' filenames agree exactly when the timestamps do. -/
theorem serializer_deterministic (fmt : String) (cols : List String)
    (rows : List (List Cell)) (ts1 ts2 : String) :
    (serializerRun fmt cols rows ts1).1 = (serializerRun fmt cols rows ts2).1 ∧
    (serializerRun fmt cols rows ts1).2.1 = (serializerRun fmt cols rows ts2).2.1 ∧
    (serializerRun fmt cols rows ts1).2.2 = "提取数据_" ++ fmt ++ "_" ++ ts1 ++ ".xlsx" ∧
    ((serializerRun fmt cols rows ts1).2.2 = (serializerRun fmt cols rows ts2).2.2 ↔
      ts1 = ts2) := by
  exact ⟨rfl, rfl, rfl, makeFilename_inj fmt ts1 ts2⟩

/-- C6 witness: a concrete run at two different timestamps yields identical
base64 artifacts and filenames differing only through the timestamp. -/
theorem serializer_deterministic_witness :
    (serializerRun "测量成果表" ["c"] [[Cell.num 1]] "20240101_000000").2.1 =
      (serializerRun "测量成果表" ["c"] [[Cell.num 1]] "20240102_000000").2.1 ∧
    (serializerRun "测量成果表" ["c"] [[Cell.num 1]] "20240101_000000").2.2 ≠
      (serializerRun "测量成果表" ["c"] [[Cell.num 1]] "20240102_000000").2.2 := by
  have h := serializer_deterministic "测量成果表" ["c"] [[Cell.num 1]]
    "20240101_000000" "20240102_000000"
  refine ⟨h.2.1, fun hc => absurd (h.2.2.2.mp hc) (by decide)⟩

/-! ## C7: name-based classification -/

/-- C7: name-based classification: `detect_excel_format` returns the first
entry of the static format table, in enumeration order, whose identifier
column set is contained in the header's column set — the 边坡检查表 entry is
tested before the 测量成果表 entry — and when neither matches it reports
unrecognized (`none`) with the full parsed column list; in that case the
handler's column list falls back to the caller-supplied explicit list when
one is supplied (nonempty), and to the full parsed column list otherwise. -/
theorem detect_format_first_match (df : DataFrame) :
    detect_excel_format df =
      (if subsetCols ["序号", "桩号"] df.columns then
        (some "边坡检查表", ["序号", "桩号", "检查时间", "责任人", "问题描述", "整改措施"])
       else if subsetCols ["点号", "X坐标"] df.columns then
        (some "测量成果表", ["点号", "X坐标", "Y坐标", "高程", "备注"])
       else (none, df.columns)) ∧
    ((detect_excel_format df).1 = none →
      (∀ c cs, columnsToExtract (some (c :: cs)) (detect_excel_format df).2 = c :: cs) ∧
      columnsToExtract none (detect_excel_format df).2 = df.columns ∧
      columnsToExtract (some []) (detect_excel_format df).2 = df.columns) := by
  have hdet : detect_excel_format df =
      (if subsetCols ["序号", "桩号"] df.columns then
        (some "边坡检查表", ["序号", "桩号", "检查时间", "责任人", "问题描述", "整改措施"])
       else if subsetCols ["点号", "X坐标"] df.columns then
        (some "测量成果表", ["点号", "X坐标", "Y坐标", "高程", "备注"])
       else (none, df.columns)) := by
    rw [detect_excel_format, EXCEL_FORMATS]
    cases h1 : subsetCols ["序号", "桩号"] df.columns <;>
      cases h2 : subsetCols ["点号", "X坐标"] df.columns <;>
        simp [List.find?, h1, h2]
  refine ⟨hdet, ?_⟩
  intro hnone
  have hsnd : (detect_excel_format df).2 = df.columns := by
    rw [hdet] at hnone ⊢
    cases h1 : subsetCols ["序号", "桩号"] df.columns <;>
      cases h2 : subsetCols ["点号", "X坐标"] df.columns <;>
        simp_all
  rw [hsnd]
  exact ⟨fun c cs => rfl, rfl, rfl⟩

/-- C7 witness: a header matching neither identifier set is unrecognized and
falls back to the explicit list when supplied, else to the full column list;
a header containing 序号 and 桩号 matches the first entry. -/
theorem detect_format_first_match_witness :
    detect_excel_format { columns := ["a", "b"], rows := [] } = (none, ["a", "b"]) ∧
    columnsToExtract (some ["x"])
      (detect_excel_format { columns := ["a", "b"], rows := [] }).2 = ["x"] ∧
    columnsToExtract none
      (detect_excel_format { columns := ["a", "b"], rows := [] }).2 = ["a", "b"] ∧
    (detect_excel_format { columns := ["桩号", "序号", "extra"], rows := [] }).1 =
      some "边坡检查表" := by
  have h := detect_format_first_match { columns := ["a", "b"], rows := [] }
  have hnone : (detect_excel_format { columns := ["a", "b"], rows := [] }).1 = none := by
    rw [h.1]
    decide
  have h2 := detect_format_first_match { columns := ["桩号", "序号", "extra"], rows := [] }
  refine ⟨?_, (h.2 hnone).1 "x" [], (h.2 hnone).2.1, ?_⟩
  · rw [h.1]
    decide
  · rw [h2.1]
    decide

/-! ## C8: empty-selection outcome -/

/-- C8: empty-selection outcome: when none of the requested (or default)
columns exists in the parsed header, the Flask handler answers HTTP 400 with
`success=False`, no artifact, and a message listing the columns that are
available; every success response instead carries `success=True`, HTTP 200
and an artifact, so the failure is distinct from an empty-but-valid
result. -/
theorem empty_selection_outcome (df : DataFrame) (custom : Option (List String))
    (h : (columnsToExtract custom (detect_excel_format df).2).filter
        (fun c => df.columns.contains c) = []) :
    (flaskProcess df custom).status = 400 ∧
    (flaskProcess df custom).success = false ∧
    (flaskProcess df custom).file_base64 = none ∧
    (flaskProcess df custom).message = "未找到指定的列。可用列: " ++ pyListRepr df.columns ∧
    (∀ df' custom', (flaskProcess df' custom').success = true →
      (flaskProcess df' custom').status = 200 ∧
      (flaskProcess df' custom').file_base64 ≠ none) := by
  refine ⟨?_, ?_, ?_, ?_, ?_⟩
  · rw [flaskProcess, h]
    rfl
  · rw [flaskProcess, h]
    rfl
  · rw [flaskProcess, h]
    rfl
  · rw [flaskProcess, h]
    rfl
  · intro df' custom' hs
    rw [flaskProcess] at hs ⊢
    by_cases hv : ((columnsToExtract custom' (detect_excel_format df').2).filter
        (fun c => df'.columns.contains c)).isEmpty = true
    · simp only [hv, if_pos] at hs
      exact absurd hs (by decide)
    · simp only [Bool.not_eq_true] at hv
      simp only [hv] at hs ⊢
      exact ⟨rfl, by simp⟩

/-- C8 witness: requesting only a column absent from a two-column header
yields the 400 listing response with the available columns interpolated. -/
theorem empty_selection_outcome_witness :
    (columnsToExtract (some ["x"])
      (detect_excel_format { columns := ["a", "b"], rows := [[Cell.num 1, Cell.num 2]] }).2).filter
      (fun c => ({ columns := ["a", "b"], rows := [[Cell.num 1, Cell.num 2]] } : DataFrame).columns.contains c) = [] ∧
    (flaskProcess { columns := ["a", "b"], rows := [[Cell.num 1, Cell.num 2]] } (some ["x"])).status = 400 ∧
    (flaskProcess { columns := ["a", "b"], rows := [[Cell.num 1, Cell.num 2]] } (some ["x"])).success = false := by
  have h := empty_selection_outcome
    { columns := ["a", "b"], rows := [[Cell.num 1, Cell.num 2]] } (some ["x"]) (by decide)
  exact ⟨by decide, h.1, h.2.1⟩

/-! ## C9: the outcome is never partially filled -/

/-- The single-table core of the C9 invariant, for the response built by
`extractCore`. -/
theorem extractCore_invariant (t : RawTable) (ts : String) :
    ((extractCore t ts).success = true →
      (extractCore t ts).file_base64 ≠ "" ∧
      (extractCore t ts).filename ≠ "" ∧
      ∃ colsUsed rowsUsed, rowsUsed ≠ [] ∧
        (extractCore t ts).column_names = colsUsed ∧
        (extractCore t ts).row_count = rowsUsed.length ∧
        (extractCore t ts).file_base64 = b64encode (serializeXlsx colsUsed rowsUsed)) ∧
    ((extractCore t ts).success = false →
      (extractCore t ts).file_base64 = "" ∧ (extractCore t ts).filename = "") := by
  have htab : ∀ ft oc ex,
      ((tableResponse ft oc ex ts).success = true →
        (tableResponse ft oc ex ts).file_base64 ≠ "" ∧
        (tableResponse ft oc ex ts).filename ≠ "" ∧
        ∃ colsUsed rowsUsed, rowsUsed ≠ [] ∧
          (tableResponse ft oc ex ts).column_names = colsUsed ∧
          (tableResponse ft oc ex ts).row_count = rowsUsed.length ∧
          (tableResponse ft oc ex ts).file_base64 =
            b64encode (serializeXlsx colsUsed rowsUsed)) ∧
      ((tableResponse ft oc ex ts).success = false →
        (tableResponse ft oc ex ts).file_base64 = "" ∧
        (tableResponse ft oc ex ts).filename = "") := by
    intro ft oc ex
    rw [tableResponse]
    by_cases hz : ex.length = 0
    · rw [if_pos hz]
      exact ⟨fun hs => absurd hs (by simp), fun _ => ⟨rfl, rfl⟩⟩
    · rw [if_neg hz]
      exact ⟨fun _ => ⟨b64encode_ne_empty _ (serializeXlsx_ne_nil _ _),
        makeFilename_ne_empty _ _, oc, ex,
        fun hnil => hz (by rw [hnil]; rfl), rfl, rfl, rfl⟩,
        fun hs => absurd hs (by simp)⟩
  have hfail : ∀ m,
      ((failureResponse m).success = true →
        (failureResponse m).file_base64 ≠ "" ∧
        (failureResponse m).filename ≠ "" ∧
        ∃ colsUsed rowsUsed, rowsUsed ≠ [] ∧
          (failureResponse m).column_names = colsUsed ∧
          (failureResponse m).row_count = rowsUsed.length ∧
          (failureResponse m).file_base64 =
            b64encode (serializeXlsx colsUsed rowsUsed)) ∧
      ((failureResponse m).success = false →
        (failureResponse m).file_base64 = "" ∧ (failureResponse m).filename = "") :=
    fun m => ⟨fun hs => absurd hs (by simp [failureResponse]), fun _ => ⟨rfl, rfl⟩⟩
  cases hcl : classify t with
  | surveyResults =>
    rw [extractCore_survey t ts hcl]
    by_cases h3 : surveyWidth t < 3
    · rw [if_pos h3]
      exact hfail _
    · rw [if_neg h3]
      by_cases h5 : surveyWidth t < 5
      · rw [if_pos h5]
        exact hfail _
      · rw [if_neg h5]
        exact htab _ _ _
  | slopeInspection =>
    rw [extractCore_slope t ts hcl]
    exact htab _ _ _

/-- C9: outcome never partially filled: whatever the request, the loaders'
behaviour and the clock, the FastAPI handler's response satisfies: if
`success` is true then the encoded artifact is nonempty, the filename is
nonempty, and the `column_names` field is exactly the column list the
artifact was serialized with (with a nonempty row list); if `success` is
false then the artifact and filename fields are both empty. -/
theorem outcome_fully_determined (req : ExtractRequest)
    (p f : String → Except String RawTable) (ts : String) :
    ((fastapiExtract req p f ts).success = true →
      (fastapiExtract req p f ts).file_base64 ≠ "" ∧
      (fastapiExtract req p f ts).filename ≠ "" ∧
      ∃ colsUsed rowsUsed, rowsUsed ≠ [] ∧
        (fastapiExtract req p f ts).column_names = colsUsed ∧
        (fastapiExtract req p f ts).row_count = rowsUsed.length ∧
        (fastapiExtract req p f ts).file_base64 =
          b64encode (serializeXlsx colsUsed rowsUsed)) ∧
    ((fastapiExtract req p f ts).success = false →
      (fastapiExtract req p f ts).file_base64 = "" ∧
      (fastapiExtract req p f ts).filename = "") := by
  rw [fastapiExtract]
  cases hl : (if truthy req.file_base64 then p (req.file_base64.getD "")
      else if truthy (some req.file_url) then f req.file_url
      else Except.error "400: 请提供file_url或file_base64") with
  | error e =>
    refine ⟨fun hs => absurd hs ?_, fun _ => ⟨rfl, rfl⟩⟩
    exact Bool.false_ne_true
  | ok t =>
    exact extractCore_invariant t ts

/-- C9 witness: a concrete successful request has a nonempty artifact and
filename, and a concrete failing request has both fields empty. -/
theorem outcome_fully_determined_witness :
    (fastapiExtract { file_url := "", file_base64 := some "QUJD" }
      (fun _ => Except.ok [[Cell.str "h1"], [Cell.num 1]])
      (fun _ => Except.error "e") "20240101_000000").success = true ∧
    (fastapiExtract { file_url := "", file_base64 := some "QUJD" }
      (fun _ => Except.ok [[Cell.str "h1"], [Cell.num 1]])
      (fun _ => Except.error "e") "20240101_000000").file_base64 ≠ "" ∧
    (fastapiExtract { file_url := "", file_base64 := none }
      (fun _ => Except.ok [[Cell.str "h1"], [Cell.num 1]])
      (fun _ => Except.error "e") "20240101_000000").success = false ∧
    (fastapiExtract { file_url := "", file_base64 := none }
      (fun _ => Except.ok [[Cell.str "h1"], [Cell.num 1]])
      (fun _ => Except.error "e") "20240101_000000").file_base64 = "" := by
  have h1 := outcome_fully_determined { file_url := "", file_base64 := some "QUJD" }
    (fun _ => Except.ok [[Cell.str "h1"], [Cell.num 1]]) (fun _ => Except.error "e")
    "20240101_000000"
  have h2 := outcome_fully_determined { file_url := "", file_base64 := none }
    (fun _ => Except.ok [[Cell.str "h1"], [Cell.num 1]]) (fun _ => Except.error "e")
    "20240101_000000"
  refine ⟨rfl, (h1.1 rfl).1, rfl, (h2.2 rfl).1⟩

/-! ## C10: the FastAPI request model requires file_url -/

/-- C10: in the FastAPI variant the request model declares `file_url` as a
required field and `file_base64` as optional, so a body supplying only
`file_base64` with no `file_url` fails request validation — the handler
never runs — even though the handler, when it does run, consults
`file_base64` first (a truthy `file_base64` makes the result independent of
the URL loader). -/
theorem fastapi_requires_file_url (b64 : String) :
    parseExtractRequest none (some b64) = none ∧
    parseExtractRequest none none = none ∧
    (∀ u b64f, parseExtractRequest (some u) b64f =
      some { file_url := u, file_base64 := b64f }) ∧
    (b64 ≠ "" → ∀ u p f1 f2 ts,
      fastapiExtract { file_url := u, file_base64 := some b64 } p f1 ts =
        fastapiExtract { file_url := u, file_base64 := some b64 } p f2 ts) := by
  refine ⟨rfl, rfl, fun u b64f => rfl, fun hb u p f1 f2 ts => ?_⟩
  exact (fastapi_inline_precedence b64 hb
    { file_url := u, file_base64 := some b64 } rfl p f1 f2 ts).1

/-- C10 witness: a body with only `file_base64` is rejected by validation;
a body with `file_url` present validates. -/
theorem fastapi_requires_file_url_witness :
    parseExtractRequest none (some "QUJD") = none ∧
    parseExtractRequest (some "http") (some "QUJD") =
      some { file_url := "http", file_base64 := some "QUJD" } ∧
    fastapiExtract { file_url := "http", file_base64 := some "QUJD" }
        (fun _ => Except.error "x") (fun _ => Except.ok [[Cell.num 1]]) "ts" =
      fastapiExtract { file_url := "http", file_base64 := some "QUJD" }
        (fun _ => Except.error "x") (fun _ => Except.ok [[Cell.num 2]]) "ts" := by
  have h := fastapi_requires_file_url "QUJD"
  exact ⟨h.1, h.2.2.1 "http" (some "QUJD"),
    h.2.2.2 (by decide) "http" (fun _ => Except.error "x")
      (fun _ => Except.ok [[Cell.num 1]]) (fun _ => Except.ok [[Cell.num 2]]) "ts"⟩
